import Mathlib

/-!
Verification development for the HealthGuard-Mapping repository.

The definitions below are a shallow embedding of `src/server.ts` (the Express
handlers over the SQLite store) and of the role gate in `src/src/App.tsx`.
SQLite REAL columns are modelled as `Rat`, INTEGER columns as `Int`/`Nat`,
TEXT columns as `String`.  The external classifier (`ai.models.generateContent`
plus `JSON.parse`) is modelled by an `Option Prediction` argument: `some p`
stands for a call that returned parseable JSON `p`, `none` for any throw in
the handler's try block (network failure, timeout, unparseable body).
-/

namespace HealthGuard

/-- Row of the `users` table (identity columns used by the map join). -/
structure User where
  id : Int
  full_name : String
  street_name : String
  house_number : String
  ward_no : String
  age : Int
  role : String
deriving DecidableEq

/-- Row of the `symptom_logs` table. -/
structure SymptomLog where
  id : Nat
  user_id : Int
  symptoms : String
  problem_type : String
  severity : Int
  latitude : Rat
  longitude : Rat
  status : String
  created_at : Nat
deriving DecidableEq

/-- Row of the `ai_predictions` table. -/
structure AiPrediction where
  symptom_log_id : Nat
  predicted_disease : String
  confidence : Rat
  risk_level : String
  recommended_action : String
deriving DecidableEq

/-- Row of the `emergency_alerts` table. -/
structure Alert where
  type : String
  message : String
  latitude : Rat
  longitude : Rat
  status : String
deriving DecidableEq

/-- Row of the `infrastructure_layers` table. -/
structure InfraLayer where
  type : String
  name : String
  latitude : Rat
  longitude : Rat
  status : String
deriving DecidableEq

/-- The SQLite database state.  `nextLogId` is the AUTOINCREMENT counter of
`symptom_logs` (the value `lastInsertRowid` returns on the next insert). -/
structure DB where
  users : List User
  symptom_logs : List SymptomLog
  ai_predictions : List AiPrediction
  emergency_alerts : List Alert
  infrastructure_layers : List InfraLayer
  nextLogId : Nat
deriving DecidableEq

/-- Body of a POST `/api/symptoms` request. -/
structure SymptomReq where
  userId : Int
  symptoms : String
  severity : Int
  latitude : Rat
  longitude : Rat
  problemType : String
deriving DecidableEq

/-- The four fields the handler reads off the parsed classifier JSON. -/
structure Prediction where
  predicted_disease : String
  confidence : Rat
  risk_level : String
  recommended_action : String
deriving DecidableEq

/-- JSON body of the `/api/symptoms` response: `{ symptomLogId, prediction }`. -/
structure SymptomResponse where
  symptomLogId : Nat
  prediction : Option Prediction
deriving DecidableEq

/-- JSON body of the `/api/problems/:id/solve` response. -/
structure SolveResponse where
  success : Bool
deriving DecidableEq

/-- The `problem_type` CHECK constraint of the `symptom_logs` table. -/
def validCategoryB (c : String) : Bool :=
  c == "disease" || c == "drainage" || c == "other"

/-- The `symptom_logs` row inserted by the handler (status defaults to
`active`, `created_at` defaults to the current timestamp). -/
def logOfReq (req : SymptomReq) (now : Nat) (id : Nat) : SymptomLog :=
  { id := id, user_id := req.userId, symptoms := req.symptoms,
    problem_type := req.problemType, severity := req.severity,
    latitude := req.latitude, longitude := req.longitude,
    status := "active", created_at := now }

/-- The `ai_predictions` row inserted by the handler: the four parsed fields
are bound verbatim, keyed by the report id. -/
def predRow (id : Nat) (p : Prediction) : AiPrediction :=
  { symptom_log_id := id, predicted_disease := p.predicted_disease,
    confidence := p.confidence, risk_level := p.risk_level,
    recommended_action := p.recommended_action }

/-- The `emergency_alerts` row inserted for a High/Critical prediction. -/
def alertOfPrediction (p : Prediction) (req : SymptomReq) : Alert :=
  { type := "Disease Outbreak",
    message := "High risk of " ++ p.predicted_disease ++ " detected in your area.",
    latitude := req.latitude, longitude := req.longitude,
    status := "active" }

/-- POST `/api/symptoms` (src/server.ts lines 145-195).  The row insert runs
before the try block; a `problem_type` outside the CHECK constraint makes the
insert throw, so the handler errors with no row written.  Otherwise the
classifier is awaited; on `some p` the prediction row is written, then the
alert policy runs, then `{ symptomLogId, prediction }` is the response; on
`none` the catch branch answers `{ symptomLogId, prediction: null }`. -/
def handleSymptoms (req : SymptomReq) (now : Nat) (outcome : Option Prediction)
    (db : DB) : Except String (DB × SymptomResponse) :=
  if validCategoryB req.problemType then
    let id := db.nextLogId
    let db1 : DB :=
      { db with symptom_logs := db.symptom_logs ++ [logOfReq req now id],
                nextLogId := id + 1 }
    match outcome with
    | none => Except.ok (db1, { symptomLogId := id, prediction := none })
    | some p =>
        let db2 : DB :=
          { db1 with ai_predictions := db1.ai_predictions ++ [predRow id p] }
        let db3 : DB :=
          if p.risk_level == "Critical" || p.risk_level == "High" then
            { db2 with emergency_alerts := db2.emergency_alerts ++ [alertOfPrediction p req] }
          else db2
        Except.ok (db3, { symptomLogId := id, prediction := some p })
  else Except.error "CHECK constraint failed: problem_type"

/-- The per-row effect of `UPDATE symptom_logs SET status = 'solved' WHERE id = ?`. -/
def solveOne (id : Nat) (s : SymptomLog) : SymptomLog :=
  if s.id = id then { s with status := "solved" } else s

/-- POST `/api/problems/:id/solve` (src/server.ts lines 197-205): runs the
UPDATE and answers `{ success: true }` whether or not any row matched. -/
def handleSolve (id : Nat) (db : DB) : DB × SolveResponse :=
  ({ db with symptom_logs := db.symptom_logs.map (solveOne id) },
   { success := true })

/-- Insertion into a list kept in descending `created_at` order. -/
def insertDesc (s : SymptomLog) : List SymptomLog → List SymptomLog
  | [] => [s]
  | t :: ts => if t.created_at ≤ s.created_at then s :: t :: ts else t :: insertDesc s ts

/-- `ORDER BY created_at DESC`. -/
def sortByCreatedDesc : List SymptomLog → List SymptomLog
  | [] => []
  | s :: ts => insertDesc s (sortByCreatedDesc ts)

/-- The `logs` part of GET `/api/user-stats/:userId` (src/server.ts lines
219-223): `SELECT * FROM symptom_logs WHERE user_id = ? ORDER BY created_at
DESC LIMIT 5`.  No join with `ai_predictions`, and the limit is the literal 5. -/
def handleUserStats (userId : Int) (db : DB) : List SymptomLog :=
  (sortByCreatedDesc (db.symptom_logs.filter (fun s => s.user_id == userId))).take 5

/-- Projections of the intake handler result, for stating facts about the
post-state and the response. -/
def resultLogs (e : Except String (DB × SymptomResponse)) : Option (List SymptomLog) :=
  e.toOption.map (fun r => r.1.symptom_logs)

def resultPreds (e : Except String (DB × SymptomResponse)) : Option (List AiPrediction) :=
  e.toOption.map (fun r => r.1.ai_predictions)

def resultAlerts (e : Except String (DB × SymptomResponse)) : Option (List Alert) :=
  e.toOption.map (fun r => r.1.emergency_alerts)

def resultAlertTypes (e : Except String (DB × SymptomResponse)) : Option (List String) :=
  e.toOption.map (fun r => r.1.emergency_alerts.map (fun a => a.type))

def resultResp (e : Except String (DB × SymptomResponse)) : Option SymptomResponse :=
  e.toOption.map (fun r => r.2)

/-- A classifier response body that parsed as a JSON object: each of the
four properties the handler reads off it may be absent (reading an absent
property yields `undefined`). -/
structure ParsedJson where
  predicted_disease : Option String
  confidence : Option Rat
  risk_level : Option String
  recommended_action : Option String
deriving DecidableEq

/-- The binding step of the INSERT at src/server.ts line 173.  better-sqlite3
accepts numbers, strings, bigints, buffers and null as bind values and throws
on `undefined`, so the statement runs only when all four properties are
present, and then binds them verbatim; an absent property makes the insert
throw before any row is written. -/
def bindPrediction (j : ParsedJson) : Option Prediction :=
  match j.predicted_disease, j.confidence, j.risk_level, j.recommended_action with
  | some d, some c, some r, some a =>
      some { predicted_disease := d, confidence := c, risk_level := r,
             recommended_action := a }
  | _, _, _, _ => none

/-- The intake handler with the classifier interaction modelled in full:
`none` is a call failure, timeout or unparseable body; `some j` a body that
parsed as a JSON object.  An object missing a property throws at the insert
binding, which the same catch branch swallows, so its net effect on the
handler equals a classifier failure; a complete object flows on as the
prediction. -/
def handleSymptomsJson (req : SymptomReq) (now : Nat) (resp : Option ParsedJson)
    (db : DB) : Except String (DB × SymptomResponse) :=
  handleSymptoms req now (resp.bind bindPrediction) db

/-- Number of `ai_predictions` rows for a given report id. -/
def predCount (preds : List AiPrediction) (rid : Nat) : Nat :=
  preds.countP (fun p => p.symptom_log_id == rid)

/-- A database with empty tables whose AUTOINCREMENT counter is `n0`. -/
def emptyDB (n0 : Nat) : DB :=
  { users := [], symptom_logs := [], ai_predictions := [],
    emergency_alerts := [], infrastructure_layers := [], nextLogId := n0 }

/-- Concrete demonstration inputs. -/
def demoReq : SymptomReq :=
  { userId := 1, symptoms := "fever and chills", severity := 9,
    latitude := 13, longitude := 78, problemType := "disease" }

def badReq : SymptomReq :=
  { userId := 7, symptoms := "", severity := 0,
    latitude := 13, longitude := 78, problemType := "disease" }

def critPred : Prediction :=
  { predicted_disease := "Dengue", confidence := 9/10,
    risk_level := "Critical", recommended_action := "Seek immediate care" }

def badPred : Prediction :=
  { predicted_disease := "X", confidence := 5,
    risk_level := "Extreme", recommended_action := "unspecified" }

/-- A parsed response object carrying all four properties, with values
outside the expected shape. -/
def badJson : ParsedJson :=
  { predicted_disease := some "X", confidence := some 5,
    risk_level := some "Extreme", recommended_action := some "unspecified" }

/-- A parsed response object missing the `confidence` property. -/
def missingJson : ParsedJson :=
  { predicted_disease := some "Dengue", confidence := none,
    risk_level := some "High", recommended_action := some "rest" }

/-- One row of the GET `/api/map-data` symptoms query (src/server.ts lines
208-213): `SELECT s.*, p.predicted_disease, p.risk_level, u.full_name,
u.street_name, u.house_number, u.ward_no, u.age FROM symptom_logs s LEFT JOIN
ai_predictions p ... LEFT JOIN users u ...`.  Joined columns are nullable. -/
structure MapPoint where
  id : Nat
  user_id : Int
  symptoms : String
  problem_type : String
  severity : Int
  latitude : Rat
  longitude : Rat
  status : String
  created_at : Nat
  predicted_disease : Option String
  risk_level : Option String
  full_name : Option String
  street_name : Option String
  house_number : Option String
  ward_no : Option String
  age : Option Int
deriving DecidableEq

/-- The LEFT JOINs of a single `symptom_logs` row against `ai_predictions`
and `users` (each report has at most one prediction row, see the C6
invariant, so `find?` is the join). -/
def joinedPoint (db : DB) (s : SymptomLog) : MapPoint :=
  let p := db.ai_predictions.find? (fun q => q.symptom_log_id == s.id)
  let u := db.users.find? (fun v => v.id == s.user_id)
  { id := s.id, user_id := s.user_id, symptoms := s.symptoms,
    problem_type := s.problem_type, severity := s.severity,
    latitude := s.latitude, longitude := s.longitude, status := s.status,
    created_at := s.created_at,
    predicted_disease := p.map (fun q => q.predicted_disease),
    risk_level := p.map (fun q => q.risk_level),
    full_name := u.map (fun v => v.full_name),
    street_name := u.map (fun v => v.street_name),
    house_number := u.map (fun v => v.house_number),
    ward_no := u.map (fun v => v.ward_no),
    age := u.map (fun v => v.age) }

/-- JSON body of the GET `/api/map-data` response. -/
structure MapView where
  symptoms : List MapPoint
  infrastructure : List InfraLayer
  alerts : List Alert
deriving DecidableEq

/-- GET `/api/map-data` (src/server.ts lines 207-217). -/
def getMapData (db : DB) : MapView :=
  { symptoms := db.symptom_logs.map (joinedPoint db),
    infrastructure := db.infrastructure_layers,
    alerts := db.emergency_alerts.filter (fun a => a.status == "active") }

/-- The map view served to a viewer.  The endpoint takes no viewer role and
applies no per-role projection, so every role receives `getMapData db`. -/
def getMapView (viewerRole : String) (db : DB) : MapView :=
  getMapData db

/-- The client-side gate of the patient-details popup block
(src/src/App.tsx lines 562-572):
`user?.role === 'asha' || user?.role === 'government'`. -/
def popupShowsPatientDetails (role : Option String) : Bool :=
  role == some "asha" || role == some "government"

/-- Events of one `/api/symptoms` handler execution, in program order. -/
inductive HEvent where
  | insertReport (id : Nat)
  | classifierCall
  | classifierSettled (ok : Bool)
  | insertAssessment (id : Nat)
  | insertAlert
  | respond (r : SymptomResponse)
  | sqlError
deriving DecidableEq

/-- The ordered event trace of one POST `/api/symptoms` execution
(src/server.ts lines 145-195): the report insert runs first; the classifier
call is awaited; only after it settles are the assessment insert, the alert
insert and the `res.json` response reached. -/
def symptomsTrace (req : SymptomReq) (outcome : Option Prediction) (db : DB) :
    List HEvent :=
  if validCategoryB req.problemType then
    HEvent.insertReport db.nextLogId :: HEvent.classifierCall ::
      (match outcome with
       | none =>
          [HEvent.classifierSettled false,
           HEvent.respond { symptomLogId := db.nextLogId, prediction := none }]
       | some p =>
          HEvent.classifierSettled true :: HEvent.insertAssessment db.nextLogId ::
            ((if p.risk_level == "Critical" || p.risk_level == "High"
              then [HEvent.insertAlert] else []) ++
             [HEvent.respond { symptomLogId := db.nextLogId, prediction := some p }]))
  else [HEvent.sqlError]

/-- The first (and only) response event of a trace. -/
def respOf (tr : List HEvent) : Option SymptomResponse :=
  tr.findSome? (fun e => match e with | HEvent.respond r => some r | _ => none)

/-- Demonstration database for the map-view and markSolved claims: one
citizen-role reporter with full identity on file, one active report. -/
def userA : User :=
  { id := 1, full_name := "Asha Devi", street_name := "MG Road",
    house_number := "12", ward_no := "W4", age := 34, role := "citizen" }

def logA : SymptomLog :=
  { id := 1, user_id := 1, symptoms := "fever", problem_type := "disease",
    severity := 7, latitude := 13, longitude := 78,
    status := "active", created_at := 10 }

def dbC1 : DB :=
  { users := [userA], symptom_logs := [logA], ai_predictions := [],
    emergency_alerts := [], infrastructure_layers := [], nextLogId := 2 }

/-!
Concurrency model for the classification workflow.  Each in-flight
POST `/api/symptoms` request is a thread; the durable store is the shared
state; each SQLite statement is atomic.  A thread's statements, in program
order, are: insert the `symptom_logs` row (which atomically assigns the
AUTOINCREMENT id), await the classifier (one invocation, counted in
`calls`), then on success insert the `ai_predictions` row and possibly the
`emergency_alerts` row.  A schedule is an arbitrary list of thread indices,
covering every interleaving of the atomic statements.
-/

/-- One in-flight intake request.  `phase` 0: before the report insert;
1: report inserted, classifier pending; 2: prediction row inserted;
3: finished.  `assigned` is the id `lastInsertRowid` returned. -/
structure Thread where
  req : SymptomReq
  now : Nat
  outcome : Option Prediction
  phase : Nat
  assigned : Option Nat
  calls : Nat

/-- Shared store plus the in-flight requests (indexed by `Nat`). -/
structure Config where
  db : DB
  threads : Nat → Option Thread

/-- Replace thread `i`. -/
def setThread (c : Config) (i : Nat) (t : Thread) : Nat → Option Thread :=
  fun j => if j = i then some t else c.threads j

/-- Atomic statement: the report insert, assigning the fresh rowid. -/
def doInsertLog (c : Config) (i : Nat) (t : Thread) : Config :=
  { db := { c.db with
        symptom_logs := c.db.symptom_logs ++ [logOfReq t.req t.now c.db.nextLogId],
        nextLogId := c.db.nextLogId + 1 },
    threads := setThread c i { t with phase := 1, assigned := some c.db.nextLogId } }

/-- The classifier settles with a failure: the catch branch responds and the
thread finishes without touching `ai_predictions` or `emergency_alerts`. -/
def doClassifyFail (c : Config) (i : Nat) (t : Thread) : Config :=
  { db := c.db,
    threads := setThread c i { t with phase := 3, calls := t.calls + 1 } }

/-- Atomic statement: the `ai_predictions` insert after a successful
classifier call. -/
def doInsertPred (c : Config) (i : Nat) (t : Thread) (a : Nat) (p : Prediction) : Config :=
  { db := { c.db with ai_predictions := c.db.ai_predictions ++ [predRow a p] },
    threads := setThread c i { t with phase := 2, calls := t.calls + 1 } }

/-- Atomic statement: the `emergency_alerts` insert of the alert policy. -/
def doAlert (c : Config) (i : Nat) (t : Thread) (p : Prediction) : Config :=
  { db := { c.db with emergency_alerts := c.db.emergency_alerts ++ [alertOfPrediction p t.req] },
    threads := setThread c i { t with phase := 3 } }

/-- The thread finishes without a further store write. -/
def doFinish (c : Config) (i : Nat) (t : Thread) : Config :=
  { db := c.db, threads := setThread c i { t with phase := 3 } }

/-- Run the next atomic statement of thread `i` (no-op if the thread is
absent or finished).  A report whose category violates the CHECK constraint
throws at the insert and its thread dies before invoking the classifier. -/
def stepi (c : Config) (i : Nat) : Config :=
  match c.threads i with
  | none => c
  | some t =>
    if t.phase = 0 then
      if validCategoryB t.req.problemType then doInsertLog c i t else doFinish c i t
    else if t.phase = 1 then
      match t.outcome with
      | none => doClassifyFail c i t
      | some p =>
        match t.assigned with
        | none => c
        | some a => doInsertPred c i t a p
    else if t.phase = 2 then
      match t.outcome with
      | some p =>
        if p.risk_level == "Critical" || p.risk_level == "High" then doAlert c i t p
        else doFinish c i t
      | none => doFinish c i t
    else c

/-- Run a whole schedule of atomic statements. -/
def run (c : Config) (sched : List Nat) : Config :=
  sched.foldl stepi c

/-- Initial configuration: empty store with AUTOINCREMENT counter `n0`, one
fresh thread per submission `(request, timestamp, classifier outcome)`. -/
def initConfig (n0 : Nat) (subs : List (SymptomReq × Nat × Option Prediction)) : Config :=
  { db := emptyDB n0,
    threads := fun i =>
      (subs[i]?).map (fun s =>
        { req := s.1, now := s.2.1, outcome := s.2.2,
          phase := 0, assigned := none, calls := 0 }) }

/-- Inductive invariant of the workflow: prediction ids stay below the
AUTOINCREMENT counter, assigned ids are below it and pairwise distinct, each
report id has at most one prediction row, a thread whose classification is
still pending has no prediction row for its id yet, and every thread invokes
the classifier at most once (exactly once by phase 2). -/
def Inv (c : Config) : Prop :=
  (∀ p ∈ c.db.ai_predictions, p.symptom_log_id < c.db.nextLogId) ∧
  (∀ i t a, c.threads i = some t → t.assigned = some a → a < c.db.nextLogId) ∧
  (∀ i j ti tj a, i ≠ j → c.threads i = some ti → c.threads j = some tj →
     ti.assigned = some a → tj.assigned ≠ some a) ∧
  (∀ rid, predCount c.db.ai_predictions rid ≤ 1) ∧
  (∀ i t a, c.threads i = some t → t.phase = 1 → t.assigned = some a →
     predCount c.db.ai_predictions a = 0) ∧
  (∀ i t, c.threads i = some t → t.calls ≤ 1) ∧
  (∀ i t, c.threads i = some t → t.phase ≤ 1 → t.calls = 0) ∧
  (∀ i t, c.threads i = some t → 2 ≤ t.phase →
     validCategoryB t.req.problemType = true → t.calls = 1)

/-- Two concurrent demonstration submissions for the C6 witness. -/
def demoSubs : List (SymptomReq × Nat × Option Prediction) :=
  [(demoReq, 0, some critPred), (demoReq, 1, none)]

/-- A report row used in the user-stats demonstration database. -/
def mkLog (i : Nat) (uid : Int) (ts : Nat) : SymptomLog :=
  { id := i, user_id := uid, symptoms := "body ache", problem_type := "disease",
    severity := 5, latitude := 0, longitude := 0, status := "active",
    created_at := ts }

/-- Demonstration database with six reports of reporter 1, one of which has
an assessment row on file. -/
def db9 : DB :=
  { users := [],
    symptom_logs := [mkLog 1 1 1, mkLog 2 1 2, mkLog 3 1 3,
                     mkLog 4 1 4, mkLog 5 1 5, mkLog 6 1 6],
    ai_predictions := [predRow 1 critPred],
    emergency_alerts := [], infrastructure_layers := [], nextLogId := 7 }

theorem setThread_self (c : Config) (i : Nat) (t : Thread) :
    setThread c i t i = some t := by
  simp [setThread]

theorem setThread_other (c : Config) (i j : Nat) (t : Thread) (h : j ≠ i) :
    setThread c i t j = c.threads j := by
  simp [setThread, h]

theorem predCount_append (l1 l2 : List AiPrediction) (rid : Nat) :
    predCount (l1 ++ l2) rid = predCount l1 rid + predCount l2 rid := by
  simp [predCount, List.countP_append]

theorem predCount_predRow (a : Nat) (p : Prediction) (rid : Nat) :
    predCount [predRow a p] rid = if a = rid then 1 else 0 := by
  by_cases h : a = rid <;> simp [predCount, predRow, List.countP_cons, h]

theorem predCount_eq_zero_of (l : List AiPrediction) (rid : Nat)
    (h : ∀ p ∈ l, p.symptom_log_id ≠ rid) : predCount l rid = 0 := by
  simp only [predCount, List.countP_eq_zero]
  intro p hp
  simpa using h p hp

theorem Inv_doInsertLog (c : Config) (i : Nat) (t : Thread)
    (hti : c.threads i = some t) (h0 : t.phase = 0) (hI : Inv c) :
    Inv (doInsertLog c i t) := by
  obtain ⟨h1, h2, h3, h4, h5, h6, h7, h8⟩ := hI
  simp only [Inv, doInsertLog]
  refine ⟨?_, ?_, ?_, ?_, ?_, ?_, ?_, ?_⟩
  · intro q hq
    exact Nat.lt_succ_of_lt (h1 q hq)
  · intro k u a hku hua
    by_cases hk : k = i
    · rw [hk, setThread_self] at hku
      cases hku
      simp only [Option.some.injEq] at hua
      omega
    · rw [setThread_other c i k _ hk] at hku
      exact Nat.lt_succ_of_lt (h2 k u a hku hua)
  · intro k l u v a hkl hku hlv hua
    by_cases hk : k = i
    · rw [hk, setThread_self] at hku
      cases hku
      simp only [Option.some.injEq] at hua
      have hli : l ≠ i := fun h => hkl (hk.trans h.symm)
      rw [setThread_other c i l _ hli] at hlv
      intro hva
      have := h2 l v a hlv hva
      omega
    · rw [setThread_other c i k _ hk] at hku
      by_cases hl : l = i
      · rw [hl, setThread_self] at hlv
        cases hlv
        have ha := h2 k u a hku hua
        intro hva
        have hva2 : c.db.nextLogId = a := by simpa using hva
        omega
      · rw [setThread_other c i l _ hl] at hlv
        exact h3 k l u v a hkl hku hlv hua
  · exact h4
  · intro k u a hku hph hua
    by_cases hk : k = i
    · rw [hk, setThread_self] at hku
      cases hku
      simp only [Option.some.injEq] at hua
      subst hua
      exact predCount_eq_zero_of _ _ (fun q hq => Nat.ne_of_lt (h1 q hq))
    · rw [setThread_other c i k _ hk] at hku
      exact h5 k u a hku hph hua
  · intro k u hku
    by_cases hk : k = i
    · rw [hk, setThread_self] at hku
      cases hku
      simpa using h6 i t hti
    · rw [setThread_other c i k _ hk] at hku
      exact h6 k u hku
  · intro k u hku hph
    by_cases hk : k = i
    · rw [hk, setThread_self] at hku
      cases hku
      simpa using h7 i t hti (by omega)
    · rw [setThread_other c i k _ hk] at hku
      exact h7 k u hku hph
  · intro k u hku hph hv
    by_cases hk : k = i
    · rw [hk, setThread_self] at hku
      cases hku
      simp at hph
    · rw [setThread_other c i k _ hk] at hku
      exact h8 k u hku hph hv

theorem Inv_doInsertPred (c : Config) (i : Nat) (t : Thread) (a : Nat) (p : Prediction)
    (hti : c.threads i = some t) (h1p : t.phase = 1) (hout : t.outcome = some p)
    (hass : t.assigned = some a) (hI : Inv c) :
    Inv (doInsertPred c i t a p) := by
  obtain ⟨h1, h2, h3, h4, h5, h6, h7, h8⟩ := hI
  have hcalls0 : t.calls = 0 := h7 i t hti (by omega)
  have ha_lt : a < c.db.nextLogId := h2 i t a hti hass
  have hcnt0 : predCount c.db.ai_predictions a = 0 := h5 i t a hti h1p hass
  simp only [Inv, doInsertPred]
  refine ⟨?_, ?_, ?_, ?_, ?_, ?_, ?_, ?_⟩
  · intro q hq
    rcases List.mem_append.mp hq with hq | hq
    · exact h1 q hq
    · rw [List.mem_singleton.mp hq]
      exact ha_lt
  · intro k u b hku hub
    by_cases hk : k = i
    · rw [hk, setThread_self] at hku
      cases hku
      exact h2 i t b hti hub
    · rw [setThread_other c i k _ hk] at hku
      exact h2 k u b hku hub
  · intro k l u v b hkl hku hlv hub
    by_cases hk : k = i
    · rw [hk, setThread_self] at hku
      cases hku
      have hli : l ≠ i := fun h => hkl (hk.trans h.symm)
      rw [setThread_other c i l _ hli] at hlv
      have hil : i ≠ l := fun h => hli h.symm
      exact h3 i l t v b hil hti hlv hub
    · rw [setThread_other c i k _ hk] at hku
      by_cases hl : l = i
      · rw [hl, setThread_self] at hlv
        cases hlv
        have hki : k ≠ i := hk
        have hkiNe : k ≠ i := hk
        exact h3 k i u t b hkiNe hku hti hub
      · rw [setThread_other c i l _ hl] at hlv
        exact h3 k l u v b hkl hku hlv hub
  · intro rid
    rw [predCount_append, predCount_predRow]
    by_cases hr : a = rid
    · subst hr
      simp [hcnt0]
    · simpa [hr] using h4 rid
  · intro k u b hku hph hub
    by_cases hk : k = i
    · rw [hk, setThread_self] at hku
      cases hku
      simp at hph
    · rw [setThread_other c i k _ hk] at hku
      have hb0 := h5 k u b hku hph hub
      have hba : a ≠ b := by
        intro hab
        have hik : i ≠ k := fun h => hk h.symm
        exact h3 i k t u a hik hti hku hass (hab ▸ hub)
      rw [predCount_append, predCount_predRow, hb0, if_neg hba]
  · intro k u hku
    by_cases hk : k = i
    · rw [hk, setThread_self] at hku
      cases hku
      simp [hcalls0]
    · rw [setThread_other c i k _ hk] at hku
      exact h6 k u hku
  · intro k u hku hph
    by_cases hk : k = i
    · rw [hk, setThread_self] at hku
      cases hku
      simp at hph
    · rw [setThread_other c i k _ hk] at hku
      exact h7 k u hku hph
  · intro k u hku hph hv
    by_cases hk : k = i
    · rw [hk, setThread_self] at hku
      cases hku
      simp [hcalls0]
    · rw [setThread_other c i k _ hk] at hku
      exact h8 k u hku hph hv

theorem Inv_finishThread (c : Config) (alerts2 : List Alert) (i : Nat) (t t2 : Thread)
    (hti : c.threads i = some t)
    (hass : t2.assigned = t.assigned)
    (hph : 2 ≤ t2.phase)
    (hcalls : t2.calls ≤ 1)
    (hcalls1 : validCategoryB t2.req.problemType = true → t2.calls = 1)
    (hI : Inv c) :
    Inv { db := { c.db with emergency_alerts := alerts2 },
          threads := setThread c i t2 } := by
  obtain ⟨h1, h2, h3, h4, h5, h6, h7, h8⟩ := hI
  simp only [Inv]
  refine ⟨?_, ?_, ?_, ?_, ?_, ?_, ?_, ?_⟩
  · intro q hq
    exact h1 q hq
  · intro k u b hku hub
    by_cases hk : k = i
    · rw [hk, setThread_self] at hku
      cases hku
      rw [hass] at hub
      exact h2 i t b hti hub
    · rw [setThread_other c i k _ hk] at hku
      exact h2 k u b hku hub
  · intro k l u v b hkl hku hlv hub
    by_cases hk : k = i
    · rw [hk, setThread_self] at hku
      cases hku
      rw [hass] at hub
      have hli : l ≠ i := fun h => hkl (hk.trans h.symm)
      rw [setThread_other c i l _ hli] at hlv
      have hil : i ≠ l := fun h => hli h.symm
      exact h3 i l t v b hil hti hlv hub
    · rw [setThread_other c i k _ hk] at hku
      by_cases hl : l = i
      · rw [hl, setThread_self] at hlv
        cases hlv
        rw [hass]
        exact h3 k i u t b hk hku hti hub
      · rw [setThread_other c i l _ hl] at hlv
        exact h3 k l u v b hkl hku hlv hub
  · exact h4
  · intro k u b hku hph1 hub
    by_cases hk : k = i
    · rw [hk, setThread_self] at hku
      cases hku
      omega
    · rw [setThread_other c i k _ hk] at hku
      exact h5 k u b hku hph1 hub
  · intro k u hku
    by_cases hk : k = i
    · rw [hk, setThread_self] at hku
      cases hku
      exact hcalls
    · rw [setThread_other c i k _ hk] at hku
      exact h6 k u hku
  · intro k u hku hph1
    by_cases hk : k = i
    · rw [hk, setThread_self] at hku
      cases hku
      omega
    · rw [setThread_other c i k _ hk] at hku
      exact h7 k u hku hph1
  · intro k u hku hph2 hv
    by_cases hk : k = i
    · rw [hk, setThread_self] at hku
      cases hku
      exact hcalls1 hv
    · rw [setThread_other c i k _ hk] at hku
      exact h8 k u hku hph2 hv

theorem Inv_stepi (c : Config) (i : Nat) (hI : Inv c) : Inv (stepi c i) := by
  obtain ⟨h1, h2, h3, h4, h5, h6, h7, h8⟩ := hI
  cases hti : c.threads i with
  | none =>
    simp only [stepi, hti]
    exact ⟨h1, h2, h3, h4, h5, h6, h7, h8⟩
  | some t =>
    simp only [stepi, hti]
    by_cases h0 : t.phase = 0
    · rw [if_pos h0]
      by_cases hv : validCategoryB t.req.problemType = true
      · rw [if_pos hv]
        exact Inv_doInsertLog c i t hti h0 ⟨h1, h2, h3, h4, h5, h6, h7, h8⟩
      · rw [if_neg hv]
        exact Inv_finishThread c c.db.emergency_alerts i t
          { t with phase := 3 } hti rfl (by simp) (by simpa using h6 i t hti)
          (fun hcontra => absurd hcontra hv)
          ⟨h1, h2, h3, h4, h5, h6, h7, h8⟩
    · rw [if_neg h0]
      by_cases h1p : t.phase = 1
      · rw [if_pos h1p]
        cases hout : t.outcome with
        | none =>
          exact Inv_finishThread c c.db.emergency_alerts i t
            { t with phase := 3, calls := t.calls + 1 } hti rfl
            (by simp) (by simp [h7 i t hti (by omega)])
            (fun hcontra => by simp [h7 i t hti (by omega)])
            ⟨h1, h2, h3, h4, h5, h6, h7, h8⟩
        | some p =>
          cases hass : t.assigned with
          | none => exact ⟨h1, h2, h3, h4, h5, h6, h7, h8⟩
          | some a =>
            exact Inv_doInsertPred c i t a p hti h1p hout hass
              ⟨h1, h2, h3, h4, h5, h6, h7, h8⟩
      · rw [if_neg h1p]
        by_cases h2p : t.phase = 2
        · rw [if_pos h2p]
          cases hout : t.outcome with
          | some p =>
            show Inv (if p.risk_level == "Critical" || p.risk_level == "High"
                      then doAlert c i t p else doFinish c i t)
            by_cases hr : (p.risk_level == "Critical" || p.risk_level == "High") = true
            · rw [if_pos hr]
              exact Inv_finishThread c
                (c.db.emergency_alerts ++ [alertOfPrediction p t.req]) i t
                { t with phase := 3 } hti rfl (by simp)
                (by simpa using h6 i t hti)
                (fun hv2 => by simpa using h8 i t hti (by omega) hv2)
                ⟨h1, h2, h3, h4, h5, h6, h7, h8⟩
            · rw [if_neg hr]
              exact Inv_finishThread c c.db.emergency_alerts i t
                { t with phase := 3 } hti rfl (by simp)
                (by simpa using h6 i t hti)
                (fun hv2 => by simpa using h8 i t hti (by omega) hv2)
                ⟨h1, h2, h3, h4, h5, h6, h7, h8⟩
          | none =>
            exact Inv_finishThread c c.db.emergency_alerts i t
              { t with phase := 3 } hti rfl (by simp)
              (by simpa using h6 i t hti)
              (fun hv2 => by simpa using h8 i t hti (by omega) hv2)
              ⟨h1, h2, h3, h4, h5, h6, h7, h8⟩
        · rw [if_neg h2p]
          exact ⟨h1, h2, h3, h4, h5, h6, h7, h8⟩

theorem Inv_run (c : Config) (sched : List Nat) (hI : Inv c) : Inv (run c sched) := by
  induction sched generalizing c with
  | nil => exact hI
  | cons i rest ih => exact ih (stepi c i) (Inv_stepi c i hI)

theorem Inv_initConfig (n0 : Nat)
    (subs : List (SymptomReq × Nat × Option Prediction)) :
    Inv (initConfig n0 subs) := by
  refine ⟨?_, ?_, ?_, ?_, ?_, ?_, ?_, ?_⟩
  · intro q hq
    simp [initConfig, emptyDB] at hq
  · intro k u a hku hua
    simp only [initConfig, Option.map_eq_some'] at hku
    obtain ⟨s, hs, rfl⟩ := hku
    simp at hua
  · intro k l u v a hkl hku hlv hua
    simp only [initConfig, Option.map_eq_some'] at hku
    obtain ⟨s, hs, rfl⟩ := hku
    simp at hua
  · intro rid
    simp [initConfig, emptyDB, predCount]
  · intro k u a hku hph hua
    simp only [initConfig, Option.map_eq_some'] at hku
    obtain ⟨s, hs, rfl⟩ := hku
    simp at hua
  · intro k u hku
    simp only [initConfig, Option.map_eq_some'] at hku
    obtain ⟨s, hs, rfl⟩ := hku
    simp
  · intro k u hku hph
    simp only [initConfig, Option.map_eq_some'] at hku
    obtain ⟨s, hs, rfl⟩ := hku
    simp
  · intro k u hku hph hv
    simp only [initConfig, Option.map_eq_some'] at hku
    obtain ⟨s, hs, rfl⟩ := hku
    simp at hph

/-! Shared facts about the intake handler, used by several claims. -/

theorem handleSymptoms_ok_parts (req : SymptomReq) (now : Nat)
    (outcome : Option Prediction) (db : DB)
    (h : validCategoryB req.problemType = true) :
    resultLogs (handleSymptoms req now outcome db) =
      some (db.symptom_logs ++ [logOfReq req now db.nextLogId]) ∧
    resultResp (handleSymptoms req now outcome db) =
      some { symptomLogId := db.nextLogId, prediction := outcome } := by
  cases outcome with
  | none => simp [handleSymptoms, resultLogs, resultResp, Except.toOption, h]
  | some p =>
    by_cases hr : (p.risk_level == "Critical" || p.risk_level == "High") = true <;>
      simp [handleSymptoms, resultLogs, resultResp, Except.toOption, h, hr]

theorem handleSymptoms_invalid (req : SymptomReq) (now : Nat)
    (outcome : Option Prediction) (db : DB)
    (h : ¬ validCategoryB req.problemType = true) :
    handleSymptoms req now outcome db =
      Except.error "CHECK constraint failed: problem_type" := by
  unfold handleSymptoms
  rw [if_neg h]

theorem handleSymptoms_alerts (req : SymptomReq) (now : Nat) (p : Prediction)
    (db : DB) (h : validCategoryB req.problemType = true) :
    resultAlerts (handleSymptoms req now (some p) db) =
      some (if p.risk_level == "Critical" || p.risk_level == "High"
            then db.emergency_alerts ++ [alertOfPrediction p req]
            else db.emergency_alerts) := by
  by_cases hr : (p.risk_level == "Critical" || p.risk_level == "High") = true <;>
    simp [handleSymptoms, resultAlerts, Except.toOption, h, hr]

theorem handleSymptoms_preds_none (req : SymptomReq) (now : Nat) (db : DB)
    (h : validCategoryB req.problemType = true) :
    resultPreds (handleSymptoms req now none db) = some db.ai_predictions := by
  simp [handleSymptoms, resultPreds, Except.toOption, h]

theorem handleSymptoms_preds_some (req : SymptomReq) (now : Nat) (p : Prediction)
    (db : DB) (h : validCategoryB req.problemType = true) :
    resultPreds (handleSymptoms req now (some p) db) =
      some (db.ai_predictions ++ [predRow db.nextLogId p]) := by
  by_cases hr : (p.risk_level == "Critical" || p.risk_level == "High") = true <;>
    simp [handleSymptoms, resultPreds, Except.toOption, h, hr]

theorem handleSymptoms_alerts_none (req : SymptomReq) (now : Nat) (db : DB)
    (h : validCategoryB req.problemType = true) :
    resultAlerts (handleSymptoms req now none db) = some db.emergency_alerts := by
  simp [handleSymptoms, resultAlerts, Except.toOption, h]

theorem solveOne_idem (id : Nat) (s : SymptomLog) :
    solveOne id (solveOne id s) = solveOne id s := by
  by_cases h : s.id = id <;> simp [solveOne, h]

theorem map_solveOne_idem (id : Nat) (l : List SymptomLog) :
    (l.map (solveOne id)).map (solveOne id) = l.map (solveOne id) := by
  induction l with
  | nil => rfl
  | cons s t ih => simp [List.map_cons, solveOne_idem, ih]

theorem map_solveOne_absent (id : Nat) (l : List SymptomLog)
    (h : ∀ s ∈ l, s.id ≠ id) : l.map (solveOne id) = l := by
  induction l with
  | nil => rfl
  | cons s t ih =>
    have hs : solveOne id s = s := by
      unfold solveOne
      rw [if_neg (h s (List.mem_cons_self s t))]
    rw [List.map_cons, hs, ih (fun a ha => h a (List.mem_cons_of_mem s ha))]

theorem mem_insertDesc (a s : SymptomLog) (l : List SymptomLog) :
    a ∈ insertDesc s l ↔ a = s ∨ a ∈ l := by
  induction l with
  | nil => simp [insertDesc]
  | cons t ts ih =>
    unfold insertDesc
    by_cases h : t.created_at ≤ s.created_at
    · rw [if_pos h]
      simp [List.mem_cons]
    · rw [if_neg h]
      simp only [List.mem_cons, ih]
      tauto

theorem mem_sortByCreatedDesc (a : SymptomLog) (l : List SymptomLog) :
    a ∈ sortByCreatedDesc l ↔ a ∈ l := by
  induction l with
  | nil => simp [sortByCreatedDesc]
  | cons s ts ih =>
    simp [sortByCreatedDesc, mem_insertDesc, ih, List.mem_cons]

/-! The ten claims. -/

/-- C1 (corrected): the server-side map-view operation takes no viewer role
and serves the identical payload, reporter identity fields included, to every
viewer; the only redaction is client-side, where the popup shows the
patient-details block exactly when the logged-in role is asha (field worker)
or government (authority). -/
theorem c1_amended (role1 role2 : String) (db : DB) (r : Option String) :
    getMapView role1 db = getMapView role2 db ∧
    (popupShowsPatientDetails r = true ↔
      r = some "asha" ∨ r = some "government") := by
  refine ⟨rfl, ?_⟩
  simp [popupShowsPatientDetails]

/-- C1 counterexample: on a store holding one citizen-submitted report, the
map view served to a citizen viewer carries the reporter's name, age, house
number, street and ward, and equals the view served to a field worker. -/
theorem c1_counterexample :
    ((getMapView "citizen" dbC1).symptoms.map
        (fun pt => (pt.full_name, pt.age, pt.house_number, pt.street_name,
                    pt.ward_no))) =
      [(some "Asha Devi", some 34, some "12", some "MG Road", some "W4")] ∧
    getMapView "citizen" dbC1 = getMapView "asha" dbC1 :=
  ⟨rfl, rfl⟩

/-- C1 witness: the map view is literally role-independent on the
demonstration store. -/
theorem c1_witness : getMapView "citizen" dbC1 = getMapView "government" dbC1 :=
  (c1_amended "citizen" "government" dbC1 none).1

/-- C2 (corrected): `submitReport` performs no application-level validation.
With any category among the three tags the call succeeds and creates the
report row whatever the description, severity or coordinates; a category
outside the tags fails through the store's CHECK constraint (a thrown
database error, not a `ValidationError` naming the field) with no row
created. -/
theorem c2_amended (req : SymptomReq) (now : Nat) (outcome : Option Prediction)
    (db : DB) :
    if validCategoryB req.problemType = true then
      resultLogs (handleSymptoms req now outcome db) =
        some (db.symptom_logs ++ [logOfReq req now db.nextLogId]) ∧
      resultResp (handleSymptoms req now outcome db) =
        some { symptomLogId := db.nextLogId, prediction := outcome }
    else
      handleSymptoms req now outcome db =
        Except.error "CHECK constraint failed: problem_type" := by
  by_cases h : validCategoryB req.problemType = true
  · rw [if_pos h]
    exact handleSymptoms_ok_parts req now outcome db h
  · rw [if_neg h]
    exact handleSymptoms_invalid req now outcome db h

/-- C2 counterexample: a submission with empty description and severity 0
succeeds and creates the report row instead of failing with
`ValidationError`. -/
theorem c2_counterexample :
    badReq.symptoms = "" ∧ badReq.severity = 0 ∧
    resultLogs (handleSymptoms badReq 5 none (emptyDB 1)) =
      some [logOfReq badReq 5 1] ∧
    resultResp (handleSymptoms badReq 5 none (emptyDB 1)) =
      some { symptomLogId := 1, prediction := none } :=
  ⟨rfl, rfl, rfl, rfl⟩

/-- C3 (corrected): the report row is persisted and the id assigned before
the classifier is invoked, but the handler awaits the classifier, so the
intake response is emitted only after the classification attempt settles and
its body depends on the outcome. -/
theorem c3_amended (req : SymptomReq) (outcome : Option Prediction) (db : DB)
    (h : validCategoryB req.problemType = true) :
    ∃ mid, symptomsTrace req outcome db =
      HEvent.insertReport db.nextLogId :: HEvent.classifierCall ::
        HEvent.classifierSettled outcome.isSome :: mid ++
        [HEvent.respond { symptomLogId := db.nextLogId, prediction := outcome }] := by
  unfold symptomsTrace
  rw [if_pos h]
  cases outcome with
  | none => exact ⟨[], rfl⟩
  | some p =>
    exact ⟨HEvent.insertAssessment db.nextLogId ::
      (if p.risk_level == "Critical" || p.risk_level == "High"
       then [HEvent.insertAlert] else []), rfl⟩

/-- C3 counterexample: in both classifier outcomes the response event is the
last event of the handler trace, strictly after the classifier settles, and
the response body differs between the two outcomes — the intake response is
neither produced before nor independently of the classifier call. -/
theorem c3_counterexample :
    symptomsTrace demoReq none (emptyDB 1) =
      [HEvent.insertReport 1, HEvent.classifierCall,
       HEvent.classifierSettled false,
       HEvent.respond { symptomLogId := 1, prediction := none }] ∧
    symptomsTrace demoReq (some critPred) (emptyDB 1) =
      [HEvent.insertReport 1, HEvent.classifierCall,
       HEvent.classifierSettled true, HEvent.insertAssessment 1,
       HEvent.insertAlert,
       HEvent.respond { symptomLogId := 1, prediction := some critPred }] ∧
    respOf (symptomsTrace demoReq none (emptyDB 1)) ≠
      respOf (symptomsTrace demoReq (some critPred) (emptyDB 1)) := by
  refine ⟨rfl, rfl, by decide⟩

/-- C3 witness: the amended shape instantiated on a concrete failing call. -/
theorem c3_witness :
    symptomsTrace demoReq none (emptyDB 1) =
      HEvent.insertReport 1 :: HEvent.classifierCall ::
        HEvent.classifierSettled false :: ([] : List HEvent) ++
        [HEvent.respond { symptomLogId := 1, prediction := none }] := by
  obtain ⟨mid, hmid⟩ := c3_amended demoReq none (emptyDB 1) (by decide)
  exact rfl

/-- C4 (corrected): after a successful classification, exactly one new alert
with the report's location and a message derived from the predicted condition
is created iff the risk level is High or Critical — but its type is
"Disease Outbreak", not "Outbreak Risk". -/
theorem c4_amended (req : SymptomReq) (now : Nat) (p : Prediction) (db : DB)
    (h : validCategoryB req.problemType = true) :
    resultAlerts (handleSymptoms req now (some p) db) =
      some (if p.risk_level == "Critical" || p.risk_level == "High"
            then db.emergency_alerts ++ [alertOfPrediction p req]
            else db.emergency_alerts) ∧
    resultResp (handleSymptoms req now (some p) db) =
      some { symptomLogId := db.nextLogId, prediction := some p } :=
  ⟨handleSymptoms_alerts req now p db h,
   (handleSymptoms_ok_parts req now (some p) db h).2⟩

/-- C4 counterexample: the alert created for a Critical classification has
type "Disease Outbreak", which is not the claimed "Outbreak Risk". -/
theorem c4_counterexample :
    resultAlertTypes (handleSymptoms demoReq 0 (some critPred) (emptyDB 1)) =
      some ["Disease Outbreak"] ∧
    ("Disease Outbreak" : String) ≠ "Outbreak Risk" :=
  ⟨rfl, by decide⟩

/-- C4 witness: one alert row, at the report's coordinates, with a
condition-derived message, on a concrete Critical classification. -/
theorem c4_witness :
    resultAlerts (handleSymptoms demoReq 0 (some critPred) (emptyDB 1)) =
      some [alertOfPrediction critPred demoReq] := by
  have h := c4_amended demoReq 0 critPred (emptyDB 1) (by decide)
  rw [h.1]
  rfl

/-- C5 (confirmed): a classifier failure is terminal and swallowed — no
assessment row and no alert row is written, the submission response is still
successful and carries the assigned id with a null prediction, and the
report row is present with status active and no assessment. -/
theorem c5_confirmed (req : SymptomReq) (now : Nat) (db : DB)
    (hcat : validCategoryB req.problemType = true)
    (hfresh : ∀ p ∈ db.ai_predictions, p.symptom_log_id ≠ db.nextLogId) :
    resultPreds (handleSymptoms req now none db) = some db.ai_predictions ∧
    resultAlerts (handleSymptoms req now none db) = some db.emergency_alerts ∧
    resultResp (handleSymptoms req now none db) =
      some { symptomLogId := db.nextLogId, prediction := none } ∧
    resultLogs (handleSymptoms req now none db) =
      some (db.symptom_logs ++ [logOfReq req now db.nextLogId]) ∧
    (logOfReq req now db.nextLogId).status = "active" ∧
    predCount db.ai_predictions db.nextLogId = 0 :=
  ⟨handleSymptoms_preds_none req now db hcat,
   handleSymptoms_alerts_none req now db hcat,
   (handleSymptoms_ok_parts req now none db hcat).2,
   (handleSymptoms_ok_parts req now none db hcat).1,
   rfl,
   predCount_eq_zero_of _ _ hfresh⟩

/-- C5 witness: a concrete failing classification on an empty store. -/
theorem c5_witness :
    resultPreds (handleSymptoms demoReq 2 none (emptyDB 1)) = some [] ∧
    resultResp (handleSymptoms demoReq 2 none (emptyDB 1)) =
      some { symptomLogId := 1, prediction := none } := by
  have h := c5_confirmed demoReq 2 (emptyDB 1) (by decide) (by simp [emptyDB])
  exact ⟨h.1, h.2.2.1⟩

/-- C6 (confirmed): under every interleaving of concurrently submitted
reports, each report id ends with at most one assessment row, every thread
invokes the classifier at most once, and a thread that got past the
classifier (with a category accepted by the store) has invoked it exactly
once. -/
theorem c6_confirmed (n0 : Nat)
    (subs : List (SymptomReq × Nat × Option Prediction))
    (sched : List Nat) (rid : Nat) :
    predCount (run (initConfig n0 subs) sched).db.ai_predictions rid ≤ 1 ∧
    (∀ i t, (run (initConfig n0 subs) sched).threads i = some t →
       t.calls ≤ 1) ∧
    (∀ i t, (run (initConfig n0 subs) sched).threads i = some t →
       2 ≤ t.phase → validCategoryB t.req.problemType = true → t.calls = 1) := by
  have h := Inv_run (initConfig n0 subs) sched (Inv_initConfig n0 subs)
  exact ⟨h.2.2.2.1 rid,
         fun i t hti => h.2.2.2.2.2.1 i t hti,
         fun i t hti h2p hv => h.2.2.2.2.2.2.2 i t hti h2p hv⟩

/-- C6 witness: two interleaved submissions, run to completion, leave at
most one assessment row for report 1. -/
theorem c6_witness :
    predCount (run (initConfig 1 demoSubs) [0, 1, 0, 1, 0, 1]).db.ai_predictions 1 ≤ 1 :=
  (c6_confirmed 1 demoSubs [0, 1, 0, 1, 0, 1] 1).1

/-- C7 (corrected): `markSolved` sets the matching report's status to solved
and is idempotent, but an unknown report id is not detected: the UPDATE
matches no row, the store is unchanged, and the endpoint still answers
success — there is no NotFound. -/
theorem c7_amended (id : Nat) (db : DB) :
    (handleSolve id db).2.success = true ∧
    handleSolve id (handleSolve id db).1 = handleSolve id db ∧
    ((∀ s ∈ db.symptom_logs, s.id ≠ id) → (handleSolve id db).1 = db) ∧
    (∀ s ∈ (handleSolve id db).1.symptom_logs, s.id = id →
       s.status = "solved") := by
  refine ⟨rfl, ?_, ?_, ?_⟩
  · simp only [handleSolve]
    simp [map_solveOne_idem]
    intro a _
    exact solveOne_idem id a
  · intro h
    simp [handleSolve, map_solveOne_absent id db.symptom_logs h]
  · intro s hs hsid
    simp only [handleSolve] at hs
    obtain ⟨a, ha, rfl⟩ := List.mem_map.mp hs
    unfold solveOne at hsid ⊢
    by_cases h : a.id = id
    · simp [h]
    · rw [if_neg h] at hsid
      exact absurd hsid h

/-- C7 counterexample: on a store whose only report has id 1, marking the
unknown id 42 solved answers success with the store unchanged, instead of
returning NotFound. -/
theorem c7_counterexample :
    (dbC1.symptom_logs.all (fun s => s.id != 42)) = true ∧
    (handleSolve 42 dbC1).2.success = true ∧
    (handleSolve 42 dbC1).1 = dbC1 := by
  refine ⟨rfl, rfl, rfl⟩

/-- C7 witness: the amended statement instantiated at the unknown id 42. -/
theorem c7_witness :
    (handleSolve 42 dbC1).2.success = true ∧ (handleSolve 42 dbC1).1 = dbC1 := by
  have h := c7_amended 42 dbC1
  exact ⟨h.1, h.2.2.1 (by decide)⟩

/-- C8 (corrected): the server performs no explicit shape validation of the
classifier response.  A parsed object missing any of the four properties
takes the failure path only incidentally — the store driver throws on
binding the absent value, the catch branch swallows it, nothing is persisted
and the response carries a null prediction — while an object carrying all
four properties is persisted verbatim even when its confidence lies outside
[0,1] or its risk level is none of the four known tags; no value is ever
rejected as a malformed response. -/
theorem c8_amended (req : SymptomReq) (now : Nat) (j : ParsedJson) (db : DB)
    (h : validCategoryB req.problemType = true) :
    (∀ p, bindPrediction j = some p →
       resultPreds (handleSymptomsJson req now (some j) db) =
         some (db.ai_predictions ++ [predRow db.nextLogId p]) ∧
       resultResp (handleSymptomsJson req now (some j) db) =
         some { symptomLogId := db.nextLogId, prediction := some p }) ∧
    (bindPrediction j = none →
       resultPreds (handleSymptomsJson req now (some j) db) =
         some db.ai_predictions ∧
       resultAlerts (handleSymptomsJson req now (some j) db) =
         some db.emergency_alerts ∧
       resultResp (handleSymptomsJson req now (some j) db) =
         some { symptomLogId := db.nextLogId, prediction := none }) := by
  constructor
  · intro p hp
    have hb : (some j).bind bindPrediction = some p := hp
    unfold handleSymptomsJson
    rw [hb]
    exact ⟨handleSymptoms_preds_some req now p db h,
           (handleSymptoms_ok_parts req now (some p) db h).2⟩
  · intro hnone
    have hb : (some j).bind bindPrediction = none := hnone
    unfold handleSymptomsJson
    rw [hb]
    exact ⟨handleSymptoms_preds_none req now db h,
           handleSymptoms_alerts_none req now db h,
           (handleSymptoms_ok_parts req now none db h).2⟩

/-- C8 counterexample: a parsed response object with all four properties
present but confidence 5 and risk level "Extreme" — outside the expected
shape — is persisted as-is instead of being rejected as
`ClassifierMalformedResponse`. -/
theorem c8_counterexample :
    (1 : Rat) < badPred.confidence ∧
    badPred.risk_level ∉ (["Low", "Medium", "High", "Critical"] : List String) ∧
    bindPrediction badJson = some badPred ∧
    resultPreds (handleSymptomsJson demoReq 0 (some badJson) (emptyDB 1)) =
      some [predRow 1 badPred] := by
  refine ⟨by decide, by decide, rfl, rfl⟩

/-- C8 witness: both prongs of the amended statement at concrete inputs — a
complete out-of-shape object is persisted verbatim, an object missing its
confidence persists nothing and yields the null-prediction response. -/
theorem c8_witness :
    resultPreds (handleSymptomsJson demoReq 0 (some badJson) (emptyDB 1)) =
      some [predRow 1 badPred] ∧
    resultPreds (handleSymptomsJson demoReq 0 (some missingJson) (emptyDB 1)) =
      some [] ∧
    resultResp (handleSymptomsJson demoReq 0 (some missingJson) (emptyDB 1)) =
      some { symptomLogId := 1, prediction := none } := by
  have h1 := c8_amended demoReq 0 badJson (emptyDB 1) (by decide)
  have h2 := c8_amended demoReq 0 missingJson (emptyDB 1) (by decide)
  exact ⟨(h1.1 badPred rfl).1, (h2.2 rfl).1, (h2.2 rfl).2.2⟩

/-- C9 (corrected): the recent-reports read returns only the reporter's own
report rows, capped at the hard-coded limit 5 — there is no caller-supplied
limit — and joins no assessment data: its result is invariant under any
change to the assessments table. -/
theorem c9_amended (userId : Int) (db : DB) (preds : List AiPrediction) :
    (handleUserStats userId db).length ≤ 5 ∧
    (∀ s ∈ handleUserStats userId db, s.user_id = userId ∧
       s ∈ db.symptom_logs) ∧
    handleUserStats userId { db with ai_predictions := preds } =
      handleUserStats userId db := by
  refine ⟨List.length_take_le _ _, ?_, rfl⟩
  intro s hs
  have hmem := List.mem_of_mem_take hs
  rw [mem_sortByCreatedDesc] at hmem
  have h2 := List.mem_filter.mp hmem
  refine ⟨?_, h2.1⟩
  simpa using h2.2

/-- C9 counterexample: reporter 1 has six reports, one with an assessment on
file, yet the endpoint returns five rows (a limit of 6 cannot be honored)
and returns exactly the same rows when the assessments table is emptied —
no assessment is joined. -/
theorem c9_counterexample :
    db9.ai_predictions ≠ [] ∧
    (db9.symptom_logs.filter (fun s => s.user_id == (1 : Int))).length = 6 ∧
    (handleUserStats 1 db9).length = 5 ∧
    handleUserStats 1 { db9 with ai_predictions := [] } =
      handleUserStats 1 db9 := by
  refine ⟨by decide, rfl, rfl, rfl⟩

/-- C9 witness: the amended statement instantiated on the six-report store. -/
theorem c9_witness :
    (handleUserStats 1 db9).length ≤ 5 ∧
    handleUserStats 1 { db9 with ai_predictions := [] } =
      handleUserStats 1 db9 := by
  have h := c9_amended 1 db9 []
  exact ⟨h.1, h.2.2⟩

/-- C10 (confirmed): for every submission the store accepts, the intake
response body carries the assigned report id together with the classifier
outcome itself — the full four-field prediction on success, a null
prediction on failure — so the caller can read the classification outcome
off the intake response. -/
theorem c10_confirmed (req : SymptomReq) (now : Nat)
    (outcome : Option Prediction) (db : DB)
    (h : validCategoryB req.problemType = true) :
    resultResp (handleSymptoms req now outcome db) =
      some { symptomLogId := db.nextLogId, prediction := outcome } :=
  (handleSymptoms_ok_parts req now outcome db h).2

/-- C10 witness: concrete responses on both a failed and a successful
classification. -/
theorem c10_witness :
    resultResp (handleSymptoms demoReq 3 none (emptyDB 1)) =
      some { symptomLogId := 1, prediction := none } ∧
    resultResp (handleSymptoms demoReq 3 (some critPred) (emptyDB 1)) =
      some { symptomLogId := 1, prediction := some critPred } :=
  ⟨c10_confirmed demoReq 3 none (emptyDB 1) (by decide),
   c10_confirmed demoReq 3 (some critPred) (emptyDB 1) (by decide)⟩

end HealthGuard
